import Mathlib

/-!
Verification of the status-page backend: a shallow embedding of the
uptime calculator (`app/api/v1/endpoints/public.py`), the membership
authorization logic (`organizations.py`, `teams.py`) and the service
update flow (`services.py`), with theorems settling the frozen claims.
Timestamps are modelled as integer seconds; durations as integers;
percentages as rationals.
-/

/-- Service status values, as used throughout the endpoints. -/
inductive ServiceStatusEnum
  | OPERATIONAL
  | DEGRADED_PERFORMANCE
  | PARTIAL_OUTAGE
  | MAJOR_OUTAGE
  | MINOR_OUTAGE
  | MAINTENANCE
  deriving DecidableEq, Repr

/-- A document of the service_status_history collection as the uptime
endpoint consumes it: a status plus a timestamp (the synthetic events the
endpoint itself builds have exactly this shape). -/
structure StatusEvent where
  status : ServiceStatusEnum
  timestamp : Int
  deriving DecidableEq, Repr

/-- The up set of public.get_service_uptime. -/
def up_states (s : ServiceStatusEnum) : Bool :=
  s == .OPERATIONAL || s == .DEGRADED_PERFORMANCE

/-- The excluded set of public.get_service_uptime. -/
def excluded_states (s : ServiceStatusEnum) : Bool :=
  s == .MAINTENANCE

/-- Timeline construction of public.get_service_uptime lines 168-180:
optional carry-in document, then the in-window history; if both are empty a
synthetic event at window start holding the live service status; finally a
terminal event at window end carrying the status of the last event. -/
def build_events (initial_status_doc : Option StatusEvent)
    (history : List StatusEvent) (service_status : ServiceStatusEnum)
    (start_ts end_ts : Int) : List StatusEvent :=
  let events := (match initial_status_doc with
    | some e => [e]
    | none => []) ++ history
  let events := if events.isEmpty then [⟨service_status, start_ts⟩] else events
  match events.getLast? with
  | some last => events ++ [⟨last.status, end_ts⟩]
  | none => events

/-- One iteration of the accumulation loop of public.get_service_uptime
lines 188-201, over the pair of consecutive events. -/
def uptime_step (acc : Int × Int) (p : StatusEvent × StatusEvent) : Int × Int :=
  let duration := p.2.timestamp - p.1.timestamp
  if excluded_states p.1.status then acc
  else ((if up_states p.1.status then acc.1 + duration else acc.1), acc.2 + duration)

/-- The (up_duration, total_duration) accumulators after the loop over
consecutive event pairs. -/
def uptime_durations (events : List StatusEvent) : Int × Int :=
  (events.zip events.tail).foldl uptime_step (0, 0)

/-- Python round to an integer, ties to even. -/
def round_half_even (q : ℚ) : ℤ :=
  let f := ⌊q⌋
  let r := q - f
  if r < 1 / 2 then f
  else if 1 / 2 < r then f + 1
  else if f % 2 = 0 then f else f + 1

/-- Python round(x, 4). -/
def py_round4 (q : ℚ) : ℚ := (round_half_even (q * 10000) : ℚ) / 10000

/-- The overall uptime percentage computed by public.get_service_uptime
lines 203-207 and rounded at line 251. -/
def overall_uptime_percentage (events : List StatusEvent)
    (service_status : ServiceStatusEnum) : ℚ :=
  let ud := uptime_durations events
  let raw : ℚ :=
    if 0 < ud.2 then ((ud.1 : ℚ) / (ud.2 : ℚ)) * 100
    else if up_states service_status then 100 else 0
  py_round4 raw

/-- The interval view of a pair of consecutive events: the status of the
left event and the duration up to the right event. -/
def interval_status_dur (p : StatusEvent × StatusEvent) : ServiceStatusEnum × Int :=
  (p.1.status, p.2.timestamp - p.1.timestamp)

/-- The list of intervals between consecutive timeline events. -/
def interval_list (events : List StatusEvent) : List (ServiceStatusEnum × Int) :=
  (events.zip events.tail).map interval_status_dur

/-- Declarative total duration: the sum of the durations of every interval
whose status is not Maintenance. -/
def spec_total_duration (events : List StatusEvent) : Int :=
  (((interval_list events).filter (fun i => i.1 != ServiceStatusEnum.MAINTENANCE)).map
    Prod.snd).sum

/-- Declarative up duration: the sum of the durations of every interval
whose status is Operational or DegradedPerformance. -/
def spec_up_duration (events : List StatusEvent) : Int :=
  (((interval_list events).filter
      (fun i => i.1 == ServiceStatusEnum.OPERATIONAL ||
        i.1 == ServiceStatusEnum.DEGRADED_PERFORMANCE)).map Prod.snd).sum

lemma foldl_uptime_eq (l : List (StatusEvent × StatusEvent)) (u t : Int) :
    l.foldl uptime_step (u, t) =
      (u + (((l.map interval_status_dur).filter
              (fun i => i.1 == ServiceStatusEnum.OPERATIONAL ||
                i.1 == ServiceStatusEnum.DEGRADED_PERFORMANCE)).map Prod.snd).sum,
       t + (((l.map interval_status_dur).filter
              (fun i => i.1 != ServiceStatusEnum.MAINTENANCE)).map Prod.snd).sum) := by
  induction l generalizing u t with
  | nil => simp
  | cons p l ih =>
    cases hs : p.1.status <;>
      simp [uptime_step, interval_status_dur, hs, up_states, excluded_states,
        List.foldl_cons, ih] <;> omega

lemma uptime_durations_eq (events : List StatusEvent) :
    uptime_durations events = (spec_up_duration events, spec_total_duration events) := by
  unfold uptime_durations spec_up_duration spec_total_duration interval_list
  rw [foldl_uptime_eq]
  simp

lemma py_round4_hundred : py_round4 100 = 100 := by
  norm_num [py_round4, round_half_even]

lemma py_round4_zero : py_round4 0 = 0 := by
  norm_num [py_round4, round_half_even]

/-- C1: over the timeline built from the carry-in document, the in-window
history and the terminal event, a Maintenance interval feeds neither
accumulator, every other interval feeds total_duration, an Operational or
DegradedPerformance interval additionally feeds up_duration, and the
returned percentage is 100 * up / total rounded to 4 decimal places when
total is positive, else 100 for an up live status and 0 otherwise. -/
theorem get_service_uptime_percentage_spec (initial_status_doc : Option StatusEvent)
    (history : List StatusEvent) (service_status : ServiceStatusEnum)
    (start_ts end_ts : Int) (events : List StatusEvent)
    (hevents : events = build_events initial_status_doc history service_status start_ts end_ts) :
    uptime_durations events = (spec_up_duration events, spec_total_duration events) ∧
    overall_uptime_percentage events service_status =
      (if 0 < spec_total_duration events then
        py_round4 (100 * (spec_up_duration events : ℚ) / (spec_total_duration events : ℚ))
      else if service_status = .OPERATIONAL ∨ service_status = .DEGRADED_PERFORMANCE then
        (100 : ℚ)
      else 0) := by
  refine ⟨uptime_durations_eq events, ?_⟩
  unfold overall_uptime_percentage
  rw [uptime_durations_eq events]
  by_cases ht : 0 < spec_total_duration events
  · simp only [ht, if_true]
    congr 1
    ring
  · simp only [ht, if_false]
    cases service_status <;>
      simp [up_states, py_round4_hundred, py_round4_zero]

/-- Witness for C1 at a concrete input: a 90 day window with an Operational
carry-in and one MajorOutage transition mid-window. -/
theorem get_service_uptime_percentage_spec_witness :
    uptime_durations (build_events (some ⟨.OPERATIONAL, 0⟩)
        [⟨.MAJOR_OUTAGE, 4320000⟩] .OPERATIONAL 43200 7819200) =
      (spec_up_duration (build_events (some ⟨.OPERATIONAL, 0⟩)
          [⟨.MAJOR_OUTAGE, 4320000⟩] .OPERATIONAL 43200 7819200),
       spec_total_duration (build_events (some ⟨.OPERATIONAL, 0⟩)
          [⟨.MAJOR_OUTAGE, 4320000⟩] .OPERATIONAL 43200 7819200)) ∧
    overall_uptime_percentage (build_events (some ⟨.OPERATIONAL, 0⟩)
        [⟨.MAJOR_OUTAGE, 4320000⟩] .OPERATIONAL 43200 7819200) .OPERATIONAL =
      (if 0 < spec_total_duration (build_events (some ⟨.OPERATIONAL, 0⟩)
          [⟨.MAJOR_OUTAGE, 4320000⟩] .OPERATIONAL 43200 7819200) then
        py_round4 (100 * (spec_up_duration (build_events (some ⟨.OPERATIONAL, 0⟩)
            [⟨.MAJOR_OUTAGE, 4320000⟩] .OPERATIONAL 43200 7819200) : ℚ) /
          (spec_total_duration (build_events (some ⟨.OPERATIONAL, 0⟩)
            [⟨.MAJOR_OUTAGE, 4320000⟩] .OPERATIONAL 43200 7819200) : ℚ))
      else if (ServiceStatusEnum.OPERATIONAL = .OPERATIONAL ∨
          ServiceStatusEnum.OPERATIONAL = .DEGRADED_PERFORMANCE) then (100 : ℚ)
      else 0) :=
  get_service_uptime_percentage_spec (some ⟨.OPERATIONAL, 0⟩)
    [⟨.MAJOR_OUTAGE, 4320000⟩] .OPERATIONAL 43200 7819200 _ rfl

/-- The severity map of public.get_service_uptime lines 210-217. -/
def severity_map : ServiceStatusEnum → Nat
  | .MAJOR_OUTAGE => 5
  | .PARTIAL_OUTAGE => 4
  | .MINOR_OUTAGE => 3
  | .DEGRADED_PERFORMANCE => 2
  | .MAINTENANCE => 1
  | .OPERATIONAL => 0

/-- Truncating a timestamp to its calendar day, as date() does. -/
def day_of (ts : Int) : Int := ts.fdiv 86400

/-- A Python dict keyed by dates: insertion-ordered key list plus the
current valuation. -/
structure DayMap where
  keys : List Int
  val : Int → ServiceStatusEnum

/-- Dict assignment: overwrite the value, append the key when new. -/
def DayMap.insert (m : DayMap) (k : Int) (s : ServiceStatusEnum) : DayMap :=
  { keys := if m.keys.contains k then m.keys else m.keys ++ [k],
    val := fun d => if d = k then s else m.val d }

/-- The day_map seeding loop of public.get_service_uptime lines 222-224:
for i in range(90), the date of end minus i days is set to the status of
the first timeline event. -/
def seed_day_map (end_ts : Int) (initial_status_for_daily : ServiceStatusEnum) : DayMap :=
  (List.range 90).foldl
    (fun m i => m.insert (day_of (end_ts - i * 86400)) initial_status_for_daily)
    { keys := [], val := fun _ => .OPERATIONAL }

/-- The inner scan of lines 230-243: the highest-severity status among the
events with timestamp strictly before the end of the day, starting from
Operational and replacing only on strictly greater severity. -/
def day_worst_status (sorted_events : List StatusEvent) (day_end : Int) : ServiceStatusEnum :=
  sorted_events.foldl
    (fun worst e =>
      if e.timestamp < day_end && severity_map worst < severity_map e.status then e.status
      else worst)
    .OPERATIONAL

/-- The filling loop of lines 228-244: for n in range(90), the date of
start plus n days is set to the worst status observed before that day ends. -/
def fill_day_map (sorted_events : List StatusEvent) (start_ts : Int) (m0 : DayMap) : DayMap :=
  (List.range 90).foldl
    (fun m n =>
      m.insert (day_of (start_ts + n * 86400))
        (day_worst_status sorted_events (start_ts + n * 86400 + 86400)))
    m0

/-- Stable insertion of an event into an ascending-by-timestamp list. -/
def insert_by_ts (e : StatusEvent) : List StatusEvent → List StatusEvent
  | [] => [e]
  | x :: xs => if x.timestamp < e.timestamp then x :: insert_by_ts e xs else e :: x :: xs

/-- Python sorted(events, key=timestamp): a stable ascending sort. -/
def sort_events (l : List StatusEvent) : List StatusEvent := l.foldr insert_by_ts []

/-- Ascending insertion of a date key. -/
def insert_int (k : Int) : List Int → List Int
  | [] => [k]
  | x :: xs => if x < k then x :: insert_int k xs else k :: x :: xs

/-- Sorting the dict keys ascending for the final daily list. -/
def sort_ints (l : List Int) : List Int := l.foldr insert_int []

/-- The daily statuses returned by public.get_service_uptime lines 219-248:
seed every date of the 90 iterations anchored at the window end with the
status of the first timeline event, overwrite the dates anchored at the
window start with the running worst status, and emit the entries sorted by
date. -/
def daily_statuses (events : List StatusEvent) (start_ts end_ts : Int) :
    List (Int × ServiceStatusEnum) :=
  let initial_status_for_daily := match events.head? with
    | some e => e.status
    | none => .OPERATIONAL
  let m := fill_day_map (sort_events events) start_ts (seed_day_map end_ts initial_status_for_daily)
  (sort_ints m.keys).map (fun d => (d, m.val d))

/-- Boolean check that the reported severities never decrease along the list. -/
def severity_nondecreasing : List (Int × ServiceStatusEnum) → Bool
  | [] => true
  | [_] => true
  | a :: b :: rest =>
    if severity_map a.2 ≤ severity_map b.2 then severity_nondecreasing (b :: rest)
    else false

/-- Concrete failing input for the daily summary: a 90 day window ending at
second 7819200, an Operational carry-in at second 0 and a single MajorOutage
transition at second 4320000. -/
def C2_events : List StatusEvent :=
  build_events (some ⟨.OPERATIONAL, 0⟩) [⟨.MAJOR_OUTAGE, 4320000⟩] .OPERATIONAL 43200 7819200

set_option maxRecDepth 10000 in
/-- C2: evaluated at the failing input, the endpoint returns 91 daily
buckets rather than the claimed 90, and the extra final bucket (the date of
the window end) reports the seeded status of the first timeline event,
Operational, although the highest severity among the events before that day
ends is MajorOutage. -/
theorem daily_statuses_count_and_stale_tail :
    (daily_statuses C2_events 43200 7819200).length = 91 ∧
    (daily_statuses C2_events 43200 7819200).getLast? = some (90, .OPERATIONAL) ∧
    day_worst_status (sort_events C2_events) (43200 + 89 * 86400 + 86400) = .MAJOR_OUTAGE := by
  decide

/-- Concrete failing input for monotonicity: a log whose only worsening
event is the MajorOutage transition at second 1000000, with an Operational
carry-in and no recovery event, over the window from 0 to 7776000. -/
def C6_events : List StatusEvent :=
  build_events (some ⟨.OPERATIONAL, -500⟩) [⟨.MAJOR_OUTAGE, 1000000⟩] .OPERATIONAL 0 7776000

set_option maxRecDepth 10000 in
/-- C6: evaluated at the failing input, the daily statuses ordered by date
are not monotonically non-decreasing in severity: the stale final bucket
falls back from MajorOutage to Operational. -/
theorem daily_statuses_not_monotone :
    severity_nondecreasing (daily_statuses C6_events 0 7776000) = false := by
  decide

/-- Member roles. -/
inductive UserRoleEnum
  | OWNER
  | ADMIN
  | MEMBER
  | VIEWER
  deriving DecidableEq, Repr

/-- An entry of Organization.members. -/
structure OrganizationMember where
  user_id : Nat
  role : UserRoleEnum
  deriving DecidableEq, Repr

/-- The organization fields the membership endpoints read and mutate. -/
structure Organization where
  owner_id : Nat
  members : List OrganizationMember
  deriving DecidableEq, Repr

/-- The HTTP error outcomes raised by the endpoints. -/
inductive ApiError
  | badRequest (detail : String)
  | forbidden (detail : String)
  | notFound (detail : String)
  | conflict (detail : String)
  | serverError (detail : String)
  deriving DecidableEq, Repr

/-- Whether a result is an error outcome. -/
def resultIsError {α : Type} : Except ApiError α → Bool
  | .error _ => true
  | .ok _ => false

/-- The permission check of organizations.add_organization_member line 266:
the requester appears in org.members with role ADMIN or OWNER. -/
def add_member_permission (organization : Organization)
    (requesting_user_internal_id : Nat) : Bool :=
  organization.members.any (fun m =>
    m.user_id == requesting_user_internal_id &&
      (m.role == .ADMIN || m.role == .OWNER))

/-- organizations.add_organization_member lines 260-287, after the
organization document and the requesting user are resolved; the user to add
is the internal id resolved from the payload email, none when that lookup
fails. -/
def add_organization_member (requesting_user_internal_id : Nat)
    (organization : Organization) (user_to_add : Option Nat)
    (member_role : UserRoleEnum) : Except ApiError Organization :=
  if !(add_member_permission organization requesting_user_internal_id) then
    .error (.forbidden "User does not have permission to add members.")
  else
    match user_to_add with
    | none => .error (.notFound "User with email not found.")
    | some uid =>
      if organization.members.any (fun m => m.user_id == uid) then
        .error (.conflict "User is already a member.")
      else
        .ok { organization with members := organization.members ++ [⟨uid, member_role⟩] }

/-- organizations.remove_organization_member lines 308-333, after the
organization document and the requesting user are resolved. -/
def remove_organization_member (requesting_user_internal_id : Nat)
    (organization : Organization) (user_id_to_remove : Nat) :
    Except ApiError Organization :=
  let is_owner := organization.owner_id == requesting_user_internal_id
  let is_admin := organization.members.any (fun m =>
    m.user_id == requesting_user_internal_id && m.role == .ADMIN)
  if !(is_owner || is_admin) then
    .error (.forbidden "User does not have permission to remove members.")
  else if user_id_to_remove == organization.owner_id then
    .error (.badRequest "Cannot remove the organization owner.")
  else if !is_owner && user_id_to_remove == requesting_user_internal_id then
    .error (.badRequest "Admins cannot remove themselves.")
  else
    let new_members := organization.members.filter (fun m => m.user_id != user_id_to_remove)
    if new_members.length == organization.members.length then
      .error (.notFound "Member not found.")
    else
      .ok { organization with members := new_members }

/-- Mongo positional role update: rewrite the role of the first member
matching the user id. -/
def update_role_first : List OrganizationMember → Nat → UserRoleEnum →
    List OrganizationMember
  | [], _, _ => []
  | m :: rest, uid, r =>
    if m.user_id == uid then { m with role := r } :: rest
    else m :: update_role_first rest uid r

/-- organizations.update_organization_member_role lines 355-383, after the
organization document and the requesting user are resolved. -/
def update_organization_member_role (requesting_user_internal_id : Nat)
    (organization : Organization) (user_id_to_update : Nat)
    (new_role : UserRoleEnum) : Except ApiError Organization :=
  let is_owner := organization.owner_id == requesting_user_internal_id
  let is_admin := organization.members.any (fun m =>
    m.user_id == requesting_user_internal_id && m.role == .ADMIN)
  if !(is_owner || is_admin) then
    .error (.forbidden "User does not have permission to update roles.")
  else if new_role == .OWNER then
    .error (.badRequest "Cannot assign owner role.")
  else if user_id_to_update == organization.owner_id then
    .error (.badRequest "Cannot change the owner role.")
  else if !is_owner && user_id_to_update == requesting_user_internal_id then
    .error (.forbidden "Admins cannot change their own role.")
  else if !(organization.members.any (fun m => m.user_id == user_id_to_update)) then
    .error (.notFound "Member not found or update failed.")
  else
    .ok { organization with
      members := update_role_first organization.members user_id_to_update new_role }

/-- organizations.create_organization lines 79-83: the created organization
document carries the creating user as owner_id and a single members entry
holding that user with role ADMIN. -/
def create_organization (current_user_id : Nat) : Organization :=
  { owner_id := current_user_id,
    members := [⟨current_user_id, UserRoleEnum.ADMIN⟩] }

/-- Concrete organization whose owner holds no members entry. -/
def C3_org : Organization := { owner_id := 1, members := [] }

/-- C3 counterexample: the acting principal is the organization owner
(owner_id 1), yet add_organization_member denies the call with a
permission error, so owner status alone does not permit the addition. -/
theorem add_member_owner_alone_denied :
    C3_org.owner_id = 1 ∧
    add_organization_member 1 C3_org (some 2) .MEMBER =
      .error (.forbidden "User does not have permission to add members.") :=
  ⟨rfl, rfl⟩

/-- C3 amended: add_organization_member fails with the permission-denied
error exactly when the acting principal does not appear in org.members with
role ADMIN or OWNER; being the owner by owner_id confers nothing here, and
on denial no updated organization is produced. -/
theorem add_member_permission_characterization (requesting_user_internal_id : Nat)
    (organization : Organization) (user_to_add : Option Nat)
    (member_role : UserRoleEnum) :
    (add_organization_member requesting_user_internal_id organization user_to_add
        member_role =
      .error (.forbidden "User does not have permission to add members.")) ↔
    add_member_permission organization requesting_user_internal_id = false := by
  unfold add_organization_member
  cases h : add_member_permission organization requesting_user_internal_id with
  | false => simp
  | true =>
    simp only [Bool.not_true, Bool.false_eq_true, if_false]
    cases user_to_add with
    | none => simp
    | some uid =>
      split <;> simp
      all_goals (split <;> simp)

/-- C4: remove_organization_member and update_organization_member_role
always fail with an error when the target is the organization owner, and
update_organization_member_role always rejects a requested role of OWNER;
in every such case no updated organization is produced. -/
theorem owner_membership_immutable :
    (∀ (req : Nat) (org : Organization) (target : Nat),
      target = org.owner_id →
        resultIsError (remove_organization_member req org target) = true) ∧
    (∀ (req : Nat) (org : Organization) (target : Nat) (new_role : UserRoleEnum),
      target = org.owner_id →
        resultIsError (update_organization_member_role req org target new_role) = true) ∧
    (∀ (req : Nat) (org : Organization) (target : Nat),
      resultIsError (update_organization_member_role req org target .OWNER) = true) := by
  refine ⟨?_, ?_, ?_⟩
  · intro req org target h
    subst h
    unfold remove_organization_member
    simp only [beq_self_eq_true]
    split
    · rfl
    · simp [resultIsError]
  · intro req org target new_role h
    subst h
    unfold update_organization_member_role
    simp only [beq_self_eq_true]
    split
    · rfl
    · split
      · rfl
      · simp [resultIsError]
  · intro req org target
    unfold update_organization_member_role
    simp only [beq_self_eq_true]
    split
    · rfl
    · simp [resultIsError]

/-- Concrete organization for the C4 witness: owner 7, one admin member 5. -/
def C4_org : Organization := { owner_id := 7, members := [⟨5, .ADMIN⟩] }

/-- Witness for C4: an admin targeting the owner is refused by both
endpoints, and assigning OWNER is refused. -/
theorem owner_membership_immutable_witness :
    resultIsError (remove_organization_member 5 C4_org 7) = true ∧
    resultIsError (update_organization_member_role 5 C4_org 7 .MEMBER) = true ∧
    resultIsError (update_organization_member_role 5 C4_org 3 .OWNER) = true :=
  ⟨owner_membership_immutable.1 5 C4_org 7 rfl,
   owner_membership_immutable.2.1 5 C4_org 7 .MEMBER rfl,
   owner_membership_immutable.2.2 5 C4_org 3⟩

/-- C9: a freshly created organization has the creating user as owner_id,
a single members entry holding that user with role ADMIN, and that user
passes the members-based permission check of add_organization_member. -/
theorem create_organization_owner_is_admin_member (current_user_id : Nat) :
    (create_organization current_user_id).owner_id = current_user_id ∧
    (create_organization current_user_id).members =
      [⟨current_user_id, UserRoleEnum.ADMIN⟩] ∧
    add_member_permission (create_organization current_user_id) current_user_id = true := by
  refine ⟨rfl, rfl, ?_⟩
  simp [add_member_permission, create_organization]

/-- An entry of Team.members. -/
structure TeamMember where
  user_id : Nat
  role : UserRoleEnum
  deriving DecidableEq, Repr

/-- The team fields the membership endpoints read and mutate. -/
structure Team where
  organization_id : Nat
  members : List TeamMember
  deriving DecidableEq, Repr

/-- teams.py permission predicate: owner of the parent organization or an
ADMIN entry in its members. -/
def is_org_owner_or_admin (organization : Organization) (uid : Nat) : Bool :=
  organization.owner_id == uid ||
    organization.members.any (fun m => m.user_id == uid && m.role == .ADMIN)

/-- teams.py permission predicate: an ADMIN entry in the team members. -/
def is_team_admin (team : Team) (uid : Nat) : Bool :=
  team.members.any (fun m => m.user_id == uid && m.role == .ADMIN)

/-- teams.remove_team_member lines 236-294, after the requesting user, the
team and the parent organization are resolved. -/
def remove_team_member (requesting_user_internal_id : Nat) (team : Team)
    (organization : Organization) (user_id_to_remove : Nat) : Except ApiError Team :=
  let org_priv := is_org_owner_or_admin organization requesting_user_internal_id
  let team_admin_req := is_team_admin team requesting_user_internal_id
  if !(org_priv || team_admin_req) then
    .error (.forbidden "User does not have permission to remove members from this team.")
  else
    match team.members.find? (fun m => m.user_id == user_id_to_remove) with
    | none => .error (.notFound "User is not a member of this team.")
    | some member_to_remove_info =>
      if user_id_to_remove == requesting_user_internal_id &&
          member_to_remove_info.role == .ADMIN &&
          decide (team.members.countP (fun m => m.role == UserRoleEnum.ADMIN) ≤ 1) then
        .error (.badRequest "Cannot remove the only admin from the team.")
      else if !org_priv && team_admin_req && member_to_remove_info.role == .ADMIN &&
          user_id_to_remove != requesting_user_internal_id then
        .error (.forbidden "Team admins cannot remove other team admins.")
      else
        let new_members := team.members.filter (fun m => m.user_id != user_id_to_remove)
        if new_members.length == team.members.length then
          .error (.serverError "Failed to remove member.")
        else
          .ok { team with members := new_members }

lemma filter_length_lt_of_found {l : List TeamMember} {target : Nat} {m : TeamMember}
    (h : l.find? (fun x => x.user_id == target) = some m) :
    (l.filter (fun x => x.user_id != target)).length < l.length := by
  induction l with
  | nil => simp at h
  | cons a l ih =>
    by_cases ha : (a.user_id == target) = true
    · simp only [List.filter_cons, bne, ha, Bool.not_true, if_false, List.length_cons]
      exact Nat.lt_succ_of_le (List.length_filter_le _ _)
    · rw [Bool.not_eq_true] at ha
      rw [List.find?_cons, ha] at h
      simp only [List.filter_cons, bne, ha, Bool.not_false, if_true, List.length_cons]
      exact Nat.succ_lt_succ (ih h)

/-- C5: for an authorized requester, remove_team_member denies the
self-removal of an ADMIN who is the only team admin with a validation
error, denies a team-admin-only requester removing a different team ADMIN
with a permission error, and permits self-removal once the team holds at
least two admins. -/
theorem remove_team_member_admin_rules :
    (∀ (req : Nat) (team : Team) (org : Organization) (m : TeamMember),
      team.members.find? (fun x => x.user_id == req) = some m →
      m.role = .ADMIN →
      (is_org_owner_or_admin org req || is_team_admin team req) = true →
      team.members.countP (fun x => x.role == UserRoleEnum.ADMIN) ≤ 1 →
      remove_team_member req team org req =
        .error (.badRequest "Cannot remove the only admin from the team.")) ∧
    (∀ (req target : Nat) (team : Team) (org : Organization) (m : TeamMember),
      is_org_owner_or_admin org req = false →
      is_team_admin team req = true →
      target ≠ req →
      team.members.find? (fun x => x.user_id == target) = some m →
      m.role = .ADMIN →
      remove_team_member req team org target =
        .error (.forbidden "Team admins cannot remove other team admins.")) ∧
    (∀ (req : Nat) (team : Team) (org : Organization) (m : TeamMember),
      team.members.find? (fun x => x.user_id == req) = some m →
      m.role = .ADMIN →
      (is_org_owner_or_admin org req || is_team_admin team req) = true →
      2 ≤ team.members.countP (fun x => x.role == UserRoleEnum.ADMIN) →
      remove_team_member req team org req =
        .ok { team with members := team.members.filter (fun x => x.user_id != req) }) := by
  refine ⟨?_, ?_, ?_⟩
  · intro req team org m hfind hrole hauth hcount
    simp [remove_team_member, hauth, hfind, hrole, hcount]
  · intro req target team org m horg hteam hne hfind hrole
    simp [remove_team_member, horg, hteam, hfind, hrole, hne]
  · intro req team org m hfind hrole hauth hcount
    have hc : ¬(team.members.countP (fun x => x.role == UserRoleEnum.ADMIN) ≤ 1) := by
      omega
    have hlen := filter_length_lt_of_found hfind
    simp [remove_team_member, hauth, hfind, hrole, hc, Nat.ne_of_lt hlen]

/-- Concrete team for the lone-admin denial: one admin, one member. -/
def C5_team_lone : Team := { organization_id := 11, members := [⟨3, .ADMIN⟩, ⟨4, .MEMBER⟩] }

/-- Concrete team with two admins. -/
def C5_team_two : Team := { organization_id := 11, members := [⟨3, .ADMIN⟩, ⟨4, .ADMIN⟩] }

/-- Concrete parent organization whose owner and admins are disjoint from
the team admins. -/
def C5_org : Organization := { owner_id := 9, members := [] }

/-- Witness for C5: user 3 as the only admin cannot remove themselves, a
team-admin-only user 3 cannot remove fellow admin 4, and with two admins
the self-removal of user 3 succeeds. -/
theorem remove_team_member_admin_rules_witness :
    remove_team_member 3 C5_team_lone C5_org 3 =
      .error (.badRequest "Cannot remove the only admin from the team.") ∧
    remove_team_member 3 C5_team_two C5_org 4 =
      .error (.forbidden "Team admins cannot remove other team admins.") ∧
    remove_team_member 3 C5_team_two C5_org 3 =
      .ok { C5_team_two with
        members := C5_team_two.members.filter (fun x => x.user_id != 3) } :=
  ⟨remove_team_member_admin_rules.1 3 C5_team_lone C5_org ⟨3, .ADMIN⟩
      (by decide) rfl (by decide) (by decide),
   remove_team_member_admin_rules.2.1 3 4 C5_team_two C5_org ⟨4, .ADMIN⟩
      (by decide) (by decide) (by decide) (by decide) rfl,
   remove_team_member_admin_rules.2.2 3 C5_team_two C5_org ⟨3, .ADMIN⟩
      (by decide) rfl (by decide) (by decide)⟩

/-- A status_history entry as written by services.py: old status (absent on
the creation entry), new status, timestamp. -/
structure ServiceStatusHistory where
  old_status : Option ServiceStatusEnum
  new_status : ServiceStatusEnum
  timestamp : Int
  deriving DecidableEq, Repr

/-- The service fields services.update_service reads and writes. -/
structure Service where
  name : String
  status : ServiceStatusEnum
  status_history : List ServiceStatusHistory
  updated_at : Int
  deriving DecidableEq, Repr

/-- The partial-update payload of services.update_service; a none field is
absent from the exclude_unset dump. -/
structure ServiceUpdate where
  name : Option String
  status : Option ServiceStatusEnum
  deriving DecidableEq, Repr

/-- services.update_service lines 177-233, after the service document and
the organization membership are resolved: an empty payload returns the
stored service unchanged; otherwise the fields are set, updated_at is
re-stamped, and one history entry is pushed iff the incoming status differs
from the current one. -/
def update_service (existing_service : Service) (service_update : ServiceUpdate)
    (now : Int) : Except ApiError Service :=
  if service_update.name == none && service_update.status == none then
    .ok existing_service
  else
    let history :=
      match service_update.status with
      | some s =>
        if s != existing_service.status then
          existing_service.status_history ++ [⟨some existing_service.status, s, now⟩]
        else existing_service.status_history
      | none => existing_service.status_history
    .ok { name := service_update.name.getD existing_service.name,
          status := service_update.status.getD existing_service.status,
          status_history := history,
          updated_at := now }

/-- The organization fields update_organization touches. -/
structure OrganizationEntity where
  name : String
  logo_url : Option String
  updated_at : Int
  deriving DecidableEq, Repr

/-- The partial-update payload of organizations.update_organization. -/
structure OrganizationUpdate where
  name : Option String
  logo_url : Option String
  deriving DecidableEq, Repr

/-- organizations.update_organization lines 202-229, after the organization
is resolved: an empty exclude_unset payload is rejected with a 400; a
non-empty one sets the given fields and re-stamps updated_at. -/
def update_organization (org : OrganizationEntity) (org_in : OrganizationUpdate)
    (now : Int) : Except ApiError OrganizationEntity :=
  if org_in.name == none && org_in.logo_url == none then
    .error (.badRequest "No update data provided.")
  else
    .ok { name := org_in.name.getD org.name,
          logo_url := match org_in.logo_url with
            | some u => some u
            | none => org.logo_url,
          updated_at := now }

/-- The team fields update_team touches. -/
structure TeamEntity where
  name : String
  description : Option String
  updated_at : Int
  deriving DecidableEq, Repr

/-- The partial-update payload of teams.update_team. -/
structure TeamUpdate where
  name : Option String
  description : Option String
  deriving DecidableEq, Repr

/-- teams.update_team lines 110-136, after the team is resolved: an empty
exclude_unset payload is rejected with a 400; a non-empty one sets the
given fields and re-stamps updated_at. -/
def update_team (team : TeamEntity) (team_in : TeamUpdate) (now : Int) :
    Except ApiError TeamEntity :=
  if team_in.name == none && team_in.description == none then
    .error (.badRequest "No update data provided")
  else
    .ok { name := team_in.name.getD team.name,
          description := match team_in.description with
            | some d => some d
            | none => team.description,
          updated_at := now }

/-- An organizations collection document as the public endpoints read it. -/
structure OrgDoc where
  slug : String
  id : Nat
  deriving DecidableEq, Repr

/-- A subscribers collection document. -/
structure SubscriberDoc where
  email : String
  organization_id : Nat
  deriving DecidableEq, Repr

/-- The state the unsubscribe endpoint reads and mutates. -/
structure PublicDb where
  organizations : List OrgDoc
  subscribers : List SubscriberDoc
  deriving DecidableEq, Repr

/-- public.unsubscribe_from_updates lines 115-133: when the slug does not
resolve, reply 200 with the generic message and change nothing; when it
does, delete every matching subscription and reply with the same 200 and
the same message. -/
def unsubscribe_from_updates (db : PublicDb) (slug : String) (email : String) :
    (Nat × String) × PublicDb :=
  match db.organizations.find? (fun o => o.slug == slug) with
  | none => ((200, "Your request has been processed."), db)
  | some org =>
    ((200, "Your request has been processed."),
     { db with subscribers :=
        db.subscribers.filter (fun s => !(s.email == email && s.organization_id == org.id)) })

/-- C7: update_service appends exactly one history entry holding the old
status, the incoming status and the current time when the payload carries a
status different from the current one, keeping every existing entry; it
leaves status_history unchanged when the payload status equals the current
status or is absent. -/
theorem update_service_status_history_rule :
    (∀ (svc : Service) (upd : ServiceUpdate) (now : Int) (s : ServiceStatusEnum),
      upd.status = some s → s ≠ svc.status →
      ∃ out, update_service svc upd now = .ok out ∧
        out.status_history = svc.status_history ++ [⟨some svc.status, s, now⟩]) ∧
    (∀ (svc : Service) (upd : ServiceUpdate) (now : Int),
      (upd.status = some svc.status ∨ upd.status = none) →
      ∃ out, update_service svc upd now = .ok out ∧
        out.status_history = svc.status_history) := by
  constructor
  · intro svc upd now s hs hne
    exact ⟨{ name := upd.name.getD svc.name, status := s,
             status_history := svc.status_history ++ [⟨some svc.status, s, now⟩],
             updated_at := now },
      by simp [update_service, hs, hne], rfl⟩
  · intro svc upd now h
    rcases h with h | h
    · exact ⟨{ name := upd.name.getD svc.name, status := svc.status,
               status_history := svc.status_history, updated_at := now },
        by simp [update_service, h], rfl⟩
    · cases hn : upd.name with
      | none => exact ⟨svc, by simp [update_service, h, hn], rfl⟩
      | some a =>
        exact ⟨{ name := a, status := svc.status,
                 status_history := svc.status_history, updated_at := now },
          by simp [update_service, h, hn], rfl⟩

/-- Concrete service for the C7 witness. -/
def C7_service : Service :=
  { name := "api", status := .OPERATIONAL, status_history := [], updated_at := 10 }

/-- Witness for C7: a MajorOutage update appends one entry; re-sending the
current Operational status appends nothing. -/
theorem update_service_status_history_rule_witness :
    (∃ out, update_service C7_service ⟨none, some .MAJOR_OUTAGE⟩ 99 = .ok out ∧
      out.status_history =
        C7_service.status_history ++ [⟨some C7_service.status, .MAJOR_OUTAGE, 99⟩]) ∧
    (∃ out, update_service C7_service ⟨some "api2", some .OPERATIONAL⟩ 99 = .ok out ∧
      out.status_history = C7_service.status_history) :=
  ⟨update_service_status_history_rule.1 C7_service ⟨none, some .MAJOR_OUTAGE⟩ 99
      .MAJOR_OUTAGE rfl (by decide),
   update_service_status_history_rule.2 C7_service ⟨some "api2", some .OPERATIONAL⟩ 99
      (Or.inl rfl)⟩

/-- Concrete service for the C8 counterexample. -/
def C8_service : Service :=
  { name := "db", status := .OPERATIONAL, status_history := [], updated_at := 10 }

/-- C8 counterexample: an empty update payload makes update_service return
the stored service unchanged as a success, not a ValidationError. -/
theorem update_service_empty_payload_not_error :
    update_service C8_service ⟨none, none⟩ 99 = .ok C8_service := rfl

/-- C8 amended: an empty payload is rejected with a validation error by
update_organization and update_team, leaving the entity untouched, while
update_service returns the stored service unchanged with success and
without re-stamping updated_at. -/
theorem empty_payload_update_behaviour :
    (∀ (org : OrganizationEntity) (now : Int),
      update_organization org ⟨none, none⟩ now =
        .error (.badRequest "No update data provided.")) ∧
    (∀ (team : TeamEntity) (now : Int),
      update_team team ⟨none, none⟩ now =
        .error (.badRequest "No update data provided")) ∧
    (∀ (svc : Service) (now : Int),
      update_service svc ⟨none, none⟩ now = .ok svc) :=
  ⟨fun _ _ => rfl, fun _ _ => rfl, fun _ _ => rfl⟩

/-- C10: every unsubscribe call, whether or not the slug resolves and
whether or not a matching subscription exists, yields the same observable
response: HTTP 200 with the generic processed message. -/
theorem unsubscribe_uniform_response (db1 db2 : PublicDb)
    (slug1 slug2 email1 email2 : String) :
    (unsubscribe_from_updates db1 slug1 email1).1 =
      (200, "Your request has been processed.") ∧
    (unsubscribe_from_updates db1 slug1 email1).1 =
      (unsubscribe_from_updates db2 slug2 email2).1 := by
  have h : ∀ (db : PublicDb) (sl em : String),
      (unsubscribe_from_updates db sl em).1 =
        (200, "Your request has been processed.") := by
    intro db sl em
    unfold unsubscribe_from_updates
    split <;> rfl
  exact ⟨h db1 slug1 email1, (h db1 slug1 email1).trans (h db2 slug2 email2).symm⟩
